import Mathlib

/-!
Verification of the meal-threshold evaluation and advice-dispatch engine of the
AllHealthy diet-tracking application.

The embedding models nutrient dictionaries (Python `dict`s mapping nutrient
names to numbers) as association lists `List (String × ℚ)`, Python's
`dict.get(k, 0)` as `getOr0`, `str.lower()` as `lowerString` (character-wise
ASCII lowercasing, as `String.toLower` does), and `round(x, 2)` as `round2`
(rounding to the nearest centesimal; CPython rounds exact half-way cases to
even while `round2` rounds them up, but no property below depends on the
half-way tie behaviour).  The language-model collaborator is abstracted as an
`AdviceLLM` record of response functions: the engine only decides whether to
request advice and passes the generated text through.
-/

set_option maxHeartbeats 1000000

namespace AllHealthy

/-- A nutrient dictionary: nutrient name to amount, in insertion order. -/
abbrev Macros := List (String × ℚ)

/-- Python `d.get(k, 0)`. -/
def getOr0 (m : Macros) (k : String) : ℚ :=
  (m.lookup k).getD 0

/-- Python `round(x, 2)`: round to the nearest multiple of 1/100. -/
def round2 (q : ℚ) : ℚ :=
  ((round (q * 100) : ℤ) : ℚ) / 100

/-- Python `s.lower()` (ASCII lowercasing, character by character). -/
def lowerString (s : String) : String :=
  String.mk (s.data.map Char.toLower)

/-- `MEAL_THRESHOLDS` from chatbot.py lines 147-153: allowed percentage of the
daily goal per nutrient and meal type.  Note the key is "snack", not "snacks". -/
def MEAL_THRESHOLDS : List (String × Macros) :=
  [("breakfast", [("Calories", 20), ("Protein", 19), ("Carbs", 26), ("Fats", 21)]),
   ("lunch", [("Calories", 31), ("Protein", 34), ("Carbs", 34), ("Fats", 34)]),
   ("dinner", [("Calories", 29), ("Protein", 30), ("Carbs", 29), ("Fats", 29)]),
   ("snack", [("Calories", 9), ("Protein", 9), ("Carbs", 6), ("Fats", 9)]),
   ("supper", [("Calories", 11), ("Protein", 8), ("Carbs", 6), ("Fats", 7)])]

/-- The loop body of `compare_macros` (chatbot.py lines 170-179): for each
nutrient/percentage pair of the threshold entry, compare the meal's actual
amount with `(threshold_pct / 100) * total_daily_macros.get(nutrient, 0)` and
record `round(actual - expected_max, 2)` when strictly exceeded. -/
def compareEntry (entry : Macros) (meal_macros total_daily_macros : Macros) : Macros :=
  entry.filterMap fun p =>
    let expected_max := p.2 / 100 * getOr0 total_daily_macros p.1
    let actual := getOr0 meal_macros p.1
    if actual > expected_max then some (p.1, round2 (actual - expected_max)) else none

/-- `compare_macros` from chatbot.py lines 158-179: lowercase the meal type;
unknown meal types skip the threshold check (returning the empty dict after a
logged warning); known ones run the per-nutrient comparison. -/
def compare_macros (meal_type : String) (meal_macros total_daily_macros : Macros) : Macros :=
  match MEAL_THRESHOLDS.lookup (lowerString meal_type) with
  | none => []
  | some entry => compareEntry entry meal_macros total_daily_macros

/-- The advice-generation collaborator (the LLM), abstracted as given response
functions; chatbot.py builds a prompt and returns the generated text verbatim,
so only the decision structure around these calls is modelled. -/
structure AdviceLLM where
  reduction : Macros → String → Option ℤ → Option ℤ → String
  wellness : String → ℤ → ℤ → String

/-- `get_reduction_tips` (chatbot.py lines 184-254): returns None when the
exceeded dict is empty, otherwise the LLM's reduction-tips text. -/
def get_reduction_tips (llm : AdviceLLM) (exceeded_dict : Macros) (meal_type : String)
    (energy_level hunger_level : Option ℤ) : Option String :=
  if exceeded_dict.isEmpty then none
  else some (llm.reduction exceeded_dict meal_type energy_level hunger_level)

/-- `generate_wellness_tips` (chatbot.py lines 259-306): always returns the
LLM's wellness-tips text. -/
def generate_wellness_tips (llm : AdviceLLM) (meal_type : String)
    (energy_level hunger_level : ℤ) : String :=
  llm.wellness meal_type energy_level hunger_level

/-- `handle_logged_meal` (chatbot.py lines 312-339): compare macros; if any
threshold is exceeded ask for reduction tips; otherwise, only when BOTH energy
and hunger levels are provided and `energy_level <= 2 or hunger_level >= 4`,
ask for wellness tips; otherwise return None. -/
def handle_logged_meal (llm : AdviceLLM) (meal_type : String)
    (meal_macros total_daily_macros : Macros)
    (energy_level hunger_level : Option ℤ) : Option String :=
  let exceeded := compare_macros meal_type meal_macros total_daily_macros
  if exceeded.isEmpty then
    match energy_level, hunger_level with
    | some e, some h =>
      if e ≤ 2 ∨ h ≥ 4 then some (generate_wellness_tips llm meal_type e h) else none
    | _, _ => none
  else
    get_reduction_tips llm exceeded meal_type energy_level hunger_level

/-- The spec's `HUNGER_THRESHOLD` constant (spec section 4.2). -/
def HUNGER_THRESHOLD : ℤ := 4

/-- The spec's `ENERGY_THRESHOLD` constant (spec section 4.2). -/
def ENERGY_THRESHOLD : ℤ := 2

/-- Spec-side definition (spec section 4.2, for comparison with the code):
`high_hunger = hunger_level is not None and hunger_level > HUNGER_THRESHOLD`. -/
def high_hunger_spec : Option ℤ → Bool
  | some h => decide (h > HUNGER_THRESHOLD)
  | none => false

/-- Spec-side definition (spec section 4.2, for comparison with the code):
`low_energy = energy_level is not None and energy_level < ENERGY_THRESHOLD`. -/
def low_energy_spec : Option ℤ → Bool
  | some e => decide (e < ENERGY_THRESHOLD)
  | none => false

/-- main.py line 1385: `msg = advice.strip() if advice else "All nutrients
within range."` — Python truthiness treats both None and the empty string as
false. -/
def tips_message (advice : Option String) : String :=
  match advice with
  | some a => if a = "" then "All nutrients within range." else a.trim
  | none => "All nutrients within range."

/-- An advice collaborator answering every request with a fixed text. -/
def llmConst : AdviceLLM :=
  { reduction := fun _ _ _ _ => "advice", wellness := fun _ _ _ => "advice" }

/-- An unavailable advice collaborator: every generation yields empty text. -/
def llmSilent : AdviceLLM :=
  { reduction := fun _ _ _ _ => "", wellness := fun _ _ _ => "" }

/-- Per-nutrient daily-goal defaults used by app.py `load_macros_data`
(lines 623-630 and 649-652): calories 2000, proteins 150, carbs 250, fats 65. -/
def NUTRIENT_DEFAULTS : List (String × ℚ) :=
  [("calories", 2000), ("proteins", 150), ("carbs", 250), ("fats", 65)]

/-- The per-meal-type keys iterated by the aggregator (app.py line 656). -/
def MEAL_TYPE_KEYS : List String :=
  ["breakfast", "lunch", "dinner", "supper", "snacks"]

/-- A day's meal-log document: per-meal-type nutrient entries plus the optional
cached `macros_left` field. -/
structure MealDoc where
  meals : List (String × Macros)
  macros_left : Option Macros

/-- app.py lines 644-653 (cached path): `consumed = goal - remaining`
per nutrient, with the per-key goal defaults and `macros_left.get(k, 0)`. -/
def consumed_from_cache (daily_goal ml : Macros) : Macros :=
  NUTRIENT_DEFAULTS.map fun kd => (kd.1, (daily_goal.lookup kd.1).getD kd.2 - getOr0 ml kd.1)

/-- app.py lines 655-662 (recompute path): sum each nutrient over all present
per-meal-type entries, missing entries and keys contributing 0. -/
def consumed_recompute (meal_data : List (String × Macros)) : Macros :=
  NUTRIENT_DEFAULTS.map fun kd =>
    (kd.1, (MEAL_TYPE_KEYS.map fun mt => getOr0 ((meal_data.lookup mt).getD []) kd.1).sum)

/-- app.py lines 664-670: the freshly computed `macros_left` cache value,
`daily_goal.get(k, default) - total_consumed[k]` per nutrient. -/
def macros_left_write (daily_goal consumed : Macros) : Macros :=
  NUTRIENT_DEFAULTS.map fun kd => (kd.1, (daily_goal.lookup kd.1).getD kd.2 - getOr0 consumed kd.1)

/-- app.py `load_macros_data` consumed-macros computation (lines 640-675):
use the cached `macros_left` when present, otherwise recompute from the
per-meal-type entries and write the cache back (returned as the second
component; the write itself is best-effort I/O). -/
def load_macros_data (daily_goal : Macros) (doc : MealDoc) : Macros × Option Macros :=
  match doc.macros_left with
  | some ml => (consumed_from_cache daily_goal ml, none)
  | none =>
    let c := consumed_recompute doc.meals
    (c, some (macros_left_write daily_goal c))

/-- Characterization of the comparison loop output: a pair survives exactly
when its nutrient is listed in the threshold entry with some percentage, the
actual amount strictly exceeds the allowed maximum, and the recorded value is
the rounded difference. -/
theorem mem_compareEntry (entry meal_macros total_daily_macros : Macros) (n : String) (v : ℚ) :
    (n, v) ∈ compareEntry entry meal_macros total_daily_macros ↔
      ∃ pct, (n, pct) ∈ entry ∧
        pct / 100 * getOr0 total_daily_macros n < getOr0 meal_macros n ∧
        v = round2 (getOr0 meal_macros n - pct / 100 * getOr0 total_daily_macros n) := by
  unfold compareEntry
  rw [List.mem_filterMap]
  constructor
  · rintro ⟨⟨k, pct⟩, hmem, hf⟩
    dsimp only at hf
    split at hf
    · rename_i hgt
      simp only [Option.some.injEq, Prod.mk.injEq] at hf
      obtain ⟨rfl, rfl⟩ := hf
      exact ⟨pct, hmem, hgt, rfl⟩
    · exact absurd hf (by simp)
  · rintro ⟨pct, hmem, hlt, rfl⟩
    refine ⟨(n, pct), hmem, ?_⟩
    dsimp only
    rw [if_pos hlt]

/-- A successful association-list lookup produces a member of the list. -/
theorem mem_of_lookup_eq_some {α : Type} {l : List (String × α)} {k : String} {b : α}
    (h : l.lookup k = some b) : (k, b) ∈ l := by
  rw [List.lookup_eq_some_iff] at h
  obtain ⟨l₁, l₂, rfl, -⟩ := h
  simp

/-- With duplicate-free keys, membership determines the lookup result. -/
theorem lookup_eq_of_mem_of_nodupKeys {α : Type} (l : List (String × α))
    (hnd : (l.map Prod.fst).Nodup) (k : String) (b : α) (hmem : (k, b) ∈ l) :
    l.lookup k = some b := by
  induction l with
  | nil => cases hmem
  | cons p t ih =>
    obtain ⟨k', b'⟩ := p
    simp only [List.map_cons, List.nodup_cons] at hnd
    rcases List.mem_cons.mp hmem with heq | htail
    · obtain ⟨rfl, rfl⟩ := Prod.mk.injEq .. ▸ heq
      exact List.lookup_cons_self
    · have hk : (k == k') = false := by
        rw [beq_eq_false_iff_ne]
        rintro rfl
        exact hnd.1 (List.mem_map_of_mem Prod.fst htail)
      rw [List.lookup_cons, hk]
      exact ih hnd.2 htail

/-- Every threshold-table entry lists exactly the four canonical nutrients. -/
theorem table_entry_keys {mt : String} {entry : Macros}
    (h : MEAL_THRESHOLDS.lookup mt = some entry) :
    entry.map Prod.fst = ["Calories", "Protein", "Carbs", "Fats"] := by
  have hmem : (mt, entry) ∈ MEAL_THRESHOLDS := mem_of_lookup_eq_some h
  have hall : ∀ p ∈ MEAL_THRESHOLDS, p.2.map Prod.fst = ["Calories", "Protein", "Carbs", "Fats"] := by
    decide
  exact hall _ hmem

/-- Rounding a nonnegative quantity to two decimals is nonnegative. -/
theorem round2_nonneg {q : ℚ} (h : 0 ≤ q) : 0 ≤ round2 q := by
  unfold round2
  rw [round_eq]
  have h2 : (0 : ℚ) ≤ q * 100 + 1 / 2 := by linarith
  have h3 : (0 : ℤ) ≤ ⌊q * 100 + 1 / 2⌋ := Int.floor_nonneg.mpr h2
  positivity

/-- Claim C8: for every meal type whose lowercased form is not a key of
`MEAL_THRESHOLDS` and for all meal and daily-goal dictionaries, the analyzer
returns empty `exceeded_macros`; the unknown meal type only produces a logged
warning, never a failure. -/
theorem compare_macros_unknown_meal_type (meal_type : String)
    (h : MEAL_THRESHOLDS.lookup (lowerString meal_type) = none)
    (meal_macros total_daily_macros : Macros) :
    compare_macros meal_type meal_macros total_daily_macros = [] := by
  unfold compare_macros
  rw [h]

/-- Witness for C8 at the spec's Scenario E: meal type "brunch" is unknown and
yields empty exceeded macros regardless of the amounts. -/
theorem compare_macros_unknown_meal_type_witness :
    MEAL_THRESHOLDS.lookup (lowerString "brunch") = none ∧
    compare_macros "brunch" [("Calories", 99999)] [("Calories", 2000)] = [] :=
  ⟨by decide, compare_macros_unknown_meal_type "brunch" (by decide) _ _⟩

/-- Claim C3: the threshold table's key for the snacks meal type is "snack",
while every caller in the repository (the UI buttons, the aggregation loops and
the upload helpers) uses "snacks"; a meal logged as "Snacks" therefore takes
the unknown-meal-type skip path and its threshold comparison never runs. -/
theorem snacks_threshold_gap :
    MEAL_THRESHOLDS.lookup (lowerString "Snacks") = none ∧
    (MEAL_THRESHOLDS.lookup "snack").isSome = true ∧
    "snacks" ∈ MEAL_TYPE_KEYS ∧
    "snack" ∉ MEAL_TYPE_KEYS ∧
    compare_macros "Snacks" [("Calories", 500)] [("Calories", 2000)] = [] := by
  refine ⟨by decide, by decide, by decide, by decide, ?_⟩
  unfold compare_macros
  have h : lowerString "Snacks" = "snacks" := by decide
  rw [h]
  decide

/-- Claim C4: for every nutrient with a percentage in the meal type's threshold
entry, if the meal's actual amount is at most `(pct / 100) * daily_goal`, that
nutrient is absent from the analyzer's exceeded dict — exceedance is
strictly-greater, so a meal exactly at the allowed maximum is not reported. -/
theorem compare_macros_within_threshold_absent (meal_type : String)
    (meal_macros total_daily_macros entry : Macros) (n : String) (pct : ℚ)
    (hentry : MEAL_THRESHOLDS.lookup (lowerString meal_type) = some entry)
    (hpct : entry.lookup n = some pct)
    (hle : getOr0 meal_macros n ≤ pct / 100 * getOr0 total_daily_macros n) :
    (compare_macros meal_type meal_macros total_daily_macros).lookup n = none := by
  unfold compare_macros
  rw [hentry, List.lookup_eq_none_iff]
  rintro ⟨k, v⟩ hmem
  obtain ⟨pct', hmem', hlt, -⟩ := (mem_compareEntry _ _ _ _ _).mp hmem
  rw [bne_iff_ne]
  rintro rfl
  have hnd : (entry.map Prod.fst).Nodup := by
    rw [table_entry_keys hentry]; decide
  have hl : entry.lookup n = some pct' := lookup_eq_of_mem_of_nodupKeys entry hnd n pct' hmem'
  rw [hpct, Option.some.injEq] at hl
  rw [hl] at hle
  exact absurd hlt (not_lt.mpr hle)

/-- Witness for C4 at the spec's Scenario B: a 300 kcal breakfast against a
2000 kcal daily goal stays within the 20% allowance (400), so Calories is not
reported. -/
theorem compare_macros_within_threshold_absent_witness :
    MEAL_THRESHOLDS.lookup (lowerString "breakfast") =
      some [("Calories", 20), ("Protein", 19), ("Carbs", 26), ("Fats", 21)] ∧
    ([("Calories", (20 : ℚ)), ("Protein", 19), ("Carbs", 26), ("Fats", 21)].lookup "Calories"
      = some 20) ∧
    getOr0 [("Calories", 300)] "Calories" ≤
      20 / 100 * getOr0 [("Calories", 2000)] "Calories" ∧
    (compare_macros "breakfast" [("Calories", 300)] [("Calories", 2000)]).lookup "Calories"
      = none := by
  have hle : getOr0 [("Calories", (300 : ℚ))] "Calories" ≤
      20 / 100 * getOr0 [("Calories", 2000)] "Calories" := by
    norm_num [getOr0, List.lookup]
  exact ⟨by decide, by decide, hle,
    compare_macros_within_threshold_absent "breakfast" [("Calories", 300)] [("Calories", 2000)]
      [("Calories", 20), ("Protein", 19), ("Carbs", 26), ("Fats", 21)] "Calories" 20
      (by decide) (by decide) hle⟩

/-- Claim C10: every key of the analyzer's exceeded dict comes from the meal
type's threshold entry, hence is one of the four canonical nutrient names;
keys of `meal_macros` outside the threshold entry are ignored. -/
theorem compare_macros_keys_subset (meal_type : String)
    (meal_macros total_daily_macros : Macros) (n : String) (v : ℚ)
    (hmem : (n, v) ∈ compare_macros meal_type meal_macros total_daily_macros) :
    n ∈ ["Calories", "Protein", "Carbs", "Fats"] := by
  unfold compare_macros at hmem
  split at hmem
  · cases hmem
  · rename_i entry hL
    obtain ⟨pct, hm, -, -⟩ := (mem_compareEntry _ _ _ _ _).mp hmem
    have : n ∈ entry.map Prod.fst := List.mem_map_of_mem Prod.fst hm
    rwa [table_entry_keys hL] at this

/-- Witness for C10: a 1000 kcal breakfast against a 2000 kcal goal produces
the exceeded entry Calories, and Calories is one of the four nutrient names. -/
theorem compare_macros_keys_subset_witness :
    ("Calories", (600 : ℚ)) ∈ compare_macros "breakfast" [("Calories", 1000)] [("Calories", 2000)] ∧
    "Calories" ∈ ["Calories", "Protein", "Carbs", "Fats"] := by
  have hm : ("Calories", (600 : ℚ)) ∈
      compare_macros "breakfast" [("Calories", 1000)] [("Calories", 2000)] := by
    simp [compare_macros, lowerString, MEAL_THRESHOLDS, compareEntry, getOr0, round2, round_eq,
      List.lookup, List.filterMap_cons, List.filterMap_nil]
    norm_num
  exact ⟨hm, compare_macros_keys_subset "breakfast" _ _ "Calories" 600 hm⟩

/-- Claim C6: when the daily goal for a nutrient of the threshold entry is 0,
the allowed maximum is 0, so any strictly positive consumption is flagged as
exceeded by the (rounded) full consumed amount; no division happens and no
failure branch exists. -/
theorem compare_macros_zero_goal (meal_type : String)
    (meal_macros total_daily_macros entry : Macros) (n : String) (pct : ℚ)
    (hentry : MEAL_THRESHOLDS.lookup (lowerString meal_type) = some entry)
    (hpct : (n, pct) ∈ entry)
    (hzero : getOr0 total_daily_macros n = 0)
    (hpos : 0 < getOr0 meal_macros n) :
    (n, round2 (getOr0 meal_macros n)) ∈
      compare_macros meal_type meal_macros total_daily_macros := by
  unfold compare_macros
  rw [hentry]
  refine (mem_compareEntry _ _ _ _ _).mpr ⟨pct, hpct, ?_, ?_⟩
  · rw [hzero, mul_zero]; exact hpos
  · rw [hzero, mul_zero, sub_zero]

/-- Witness for C6 at the spec's Scenario D: protein goal 0 and a meal with
5 g protein yields the exceeded entry protein with the full 5 g. -/
theorem compare_macros_zero_goal_witness :
    MEAL_THRESHOLDS.lookup (lowerString "breakfast") =
      some [("Calories", 20), ("Protein", 19), ("Carbs", 26), ("Fats", 21)] ∧
    ("Protein", (19 : ℚ)) ∈ [("Calories", (20 : ℚ)), ("Protein", 19), ("Carbs", 26), ("Fats", 21)] ∧
    getOr0 [("Protein", 5)] "Protein" = 5 ∧
    ("Protein", round2 (getOr0 [("Protein", 5)] "Protein")) ∈
      compare_macros "breakfast" [("Protein", 5)] [("Protein", 0)] := by
  refine ⟨by decide, by decide, by norm_num [getOr0, List.lookup], ?_⟩
  exact compare_macros_zero_goal "breakfast" [("Protein", 5)] [("Protein", 0)]
    [("Calories", 20), ("Protein", 19), ("Carbs", 26), ("Fats", 21)] "Protein" 19
    (by decide) (by decide)
    (by norm_num [getOr0, List.lookup]) (by norm_num [getOr0, List.lookup])

/-- Counterexample to C5 as stated: with a zero calorie goal and a meal
containing 1/250 = 0.004 kcal, the guard `actual > expected_max` fires but
`round(0.004, 2) = 0.0`, so the recorded excess value is 0 — not strictly
positive. -/
theorem compare_macros_zero_excess_counterexample :
    ("Calories", (0 : ℚ)) ∈ compare_macros "breakfast" [("Calories", 1 / 250)] [("Calories", 0)] ∧
    ¬ (0 : ℚ) < 0 := by
  constructor
  · simp [compare_macros, lowerString, MEAL_THRESHOLDS, compareEntry, getOr0, round2, round_eq,
      List.lookup, List.filterMap_cons, List.filterMap_nil]
    norm_num
  · exact lt_irrefl 0

/-- Claim C5 (amended): every value in the analyzer's exceeded dict equals
`round(actual - allowed_max, 2)` for its nutrient's threshold percentage, the
strict guard `allowed_max < actual` held, and the recorded value is
nonnegative (it can be 0 when the raw difference is below 0.005). -/
theorem compare_macros_values_eq_round2 (meal_type : String)
    (meal_macros total_daily_macros : Macros) (n : String) (v : ℚ)
    (hmem : (n, v) ∈ compare_macros meal_type meal_macros total_daily_macros) :
    ∃ entry pct, MEAL_THRESHOLDS.lookup (lowerString meal_type) = some entry ∧
      (n, pct) ∈ entry ∧
      pct / 100 * getOr0 total_daily_macros n < getOr0 meal_macros n ∧
      v = round2 (getOr0 meal_macros n - pct / 100 * getOr0 total_daily_macros n) ∧
      0 ≤ v := by
  unfold compare_macros at hmem
  split at hmem
  · cases hmem
  · rename_i entry hL
    obtain ⟨pct, hm, hlt, rfl⟩ := (mem_compareEntry _ _ _ _ _).mp hmem
    exact ⟨entry, pct, hL, hm, hlt, rfl, round2_nonneg (by linarith)⟩

/-- Witness for the amended C5: a 1000 kcal lunch against a 2000 kcal goal
(31% allowance = 620) records Calories with the exact rounded difference 380. -/
theorem compare_macros_values_eq_round2_witness :
    ("Calories", (380 : ℚ)) ∈ compare_macros "lunch" [("Calories", 1000)] [("Calories", 2000)] ∧
    (∃ entry pct, MEAL_THRESHOLDS.lookup (lowerString "lunch") = some entry ∧
      ("Calories", pct) ∈ entry ∧
      pct / 100 * getOr0 [("Calories", (2000 : ℚ))] "Calories" <
        getOr0 [("Calories", (1000 : ℚ))] "Calories" ∧
      (380 : ℚ) = round2 (getOr0 [("Calories", (1000 : ℚ))] "Calories" -
        pct / 100 * getOr0 [("Calories", (2000 : ℚ))] "Calories") ∧
      (0 : ℚ) ≤ 380) := by
  have hm : ("Calories", (380 : ℚ)) ∈
      compare_macros "lunch" [("Calories", 1000)] [("Calories", 2000)] := by
    simp [compare_macros, lowerString, MEAL_THRESHOLDS, compareEntry, getOr0, round2, round_eq,
      List.lookup, List.filterMap_cons, List.filterMap_nil]
    norm_num
  exact ⟨hm, compare_macros_values_eq_round2 "lunch" _ _ "Calories" 380 hm⟩

/-- A breakfast with no recorded amounts stays within every threshold. -/
theorem compare_macros_breakfast_empty :
    compare_macros "breakfast" [] [("Calories", 2000)] = [] := by
  simp [compare_macros, lowerString, MEAL_THRESHOLDS, compareEntry, getOr0, round2, round_eq,
    List.lookup, List.filterMap_cons, List.filterMap_nil]
  norm_num

/-- Counterexample to C1 as stated: with no exceeded macros, hunger 4 and
energy 3, the spec's flags are both false (4 is not strictly above the hunger
threshold, 3 is not strictly below the energy threshold), so the claim demands
"no advice"; the code nevertheless requests wellness advice, because its
trigger is `energy_level <= 2 or hunger_level >= 4`. -/
theorem dispatch_none_iff_counterexample :
    ¬ ((handle_logged_meal llmConst "breakfast" [] [("Calories", 2000)] (some 3) (some 4) = none) ↔
      (compare_macros "breakfast" [] [("Calories", 2000)] = [] ∧
        high_hunger_spec (some 4) = false ∧ low_energy_spec (some 3) = false)) := by
  have hc := compare_macros_breakfast_empty
  simp [handle_logged_meal, hc, generate_wellness_tips, llmConst, high_hunger_spec,
    low_energy_spec, HUNGER_THRESHOLD, ENERGY_THRESHOLD]

/-- Claim C1 (amended): the dispatcher returns None exactly when no macro
threshold was exceeded AND it is not the case that both subjective levels were
provided with `energy_level <= 2 or hunger_level >= 4` (the code requires both
levels and uses non-strict comparisons, unlike the spec's independent strict
flags). -/
theorem dispatch_no_advice_iff (llm : AdviceLLM) (meal_type : String)
    (meal_macros total_daily_macros : Macros) (energy_level hunger_level : Option ℤ) :
    handle_logged_meal llm meal_type meal_macros total_daily_macros energy_level hunger_level
        = none ↔
      (compare_macros meal_type meal_macros total_daily_macros = [] ∧
        ∀ e h, energy_level = some e → hunger_level = some h → ¬(e ≤ 2 ∨ h ≥ 4)) := by
  simp only [handle_logged_meal]
  cases hC : compare_macros meal_type meal_macros total_daily_macros with
  | nil =>
    simp only [List.isEmpty_nil, if_true]
    cases energy_level with
    | none => simp
    | some e =>
      cases hunger_level with
      | none => simp
      | some h =>
        by_cases hcond : e ≤ 2 ∨ h ≥ 4
        · simp [hcond]
          omega
        · simp [hcond]
          omega
  | cons p t =>
    simp [get_reduction_tips]

/-- Counterexample to C2 as stated: with no exceeded macros, energy 2 and
hunger 1, the spec's flags are both false (energy 2 is not strictly below the
threshold 2), yet the code requests wellness advice since its comparison
`energy_level <= 2` is non-strict. -/
theorem subjective_flags_counterexample :
    (handle_logged_meal llmConst "breakfast" [] [("Calories", 2000)] (some 2) (some 1)).isSome
        = true ∧
    high_hunger_spec (some 1) = false ∧
    low_energy_spec (some 2) = false ∧
    compare_macros "breakfast" [] [("Calories", 2000)] = [] := by
  have hc := compare_macros_breakfast_empty
  refine ⟨?_, by decide, by decide, hc⟩
  simp [handle_logged_meal, hc, generate_wellness_tips, llmConst]

/-- Claim C2 (amended): when no macro threshold is exceeded, the code requests
(wellness) advice exactly when BOTH levels are provided and
`energy_level <= ENERGY_THRESHOLD or hunger_level >= HUNGER_THRESHOLD`
(non-strict comparisons; the two signals are not independent, both must be
present). -/
theorem subjective_trigger_characterization (llm : AdviceLLM) (meal_type : String)
    (meal_macros total_daily_macros : Macros) (energy_level hunger_level : Option ℤ)
    (hq : compare_macros meal_type meal_macros total_daily_macros = []) :
    (handle_logged_meal llm meal_type meal_macros total_daily_macros
        energy_level hunger_level).isSome = true ↔
      ∃ e h, energy_level = some e ∧ hunger_level = some h ∧
        (e ≤ ENERGY_THRESHOLD ∨ h ≥ HUNGER_THRESHOLD) := by
  simp only [handle_logged_meal, hq, List.isEmpty_nil, if_true, ENERGY_THRESHOLD, HUNGER_THRESHOLD]
  cases energy_level with
  | none => simp
  | some e =>
    cases hunger_level with
    | none => simp
    | some h =>
      by_cases hcond : e ≤ 2 ∨ h ≥ 4
      · simp [hcond]
      · simp [hcond]

/-- Witness for the amended C2: with no exceeded macros, energy 1 and hunger 5
provided, the dispatcher does request advice. -/
theorem subjective_trigger_characterization_witness :
    compare_macros "breakfast" [] [("Calories", 2000)] = [] ∧
    (handle_logged_meal llmConst "breakfast" [] [("Calories", 2000)]
        (some 1) (some 5)).isSome = true := by
  have hc := compare_macros_breakfast_empty
  exact ⟨hc, (subjective_trigger_characterization llmConst "breakfast" [] [("Calories", 2000)]
    (some 1) (some 5) hc).mpr ⟨1, 5, rfl, rfl, Or.inl (by norm_num [ENERGY_THRESHOLD])⟩⟩

/-- Claim C9, shown failing on the code: a 1000 kcal lunch against a 2000 kcal
goal exceeds its calorie threshold, and when the advice collaborator produces
no text the UI message computed by main.py line 1385 is the positive
"All nutrients within range." instead of a distinct failure message. -/
theorem within_range_message_shown_on_advice_failure :
    compare_macros "lunch" [("Calories", 1000)] [("Calories", 2000)] ≠ [] ∧
    tips_message (handle_logged_meal llmSilent "lunch" [("Calories", 1000)] [("Calories", 2000)]
      (some 3) (some 2)) = "All nutrients within range." := by
  have hc : compare_macros "lunch" [("Calories", 1000)] [("Calories", 2000)]
      = [("Calories", 380)] := by
    simp [compare_macros, lowerString, MEAL_THRESHOLDS, compareEntry, getOr0, round2, round_eq,
      List.lookup, List.filterMap_cons, List.filterMap_nil]
    norm_num
  constructor
  · rw [hc]; simp
  · simp [handle_logged_meal, hc, get_reduction_tips, tips_message, llmSilent]

/-- Claim C7: reading back a freshly written `macros_left` cache through the
cached path reproduces exactly the consumed totals of the recompute path, for
every daily goal and every set of per-meal-type entries. -/
theorem consumed_cache_recompute_agree (daily_goal : Macros)
    (meal_data : List (String × Macros)) :
    (load_macros_data daily_goal
        ⟨meal_data, some (macros_left_write daily_goal (consumed_recompute meal_data))⟩).1
      = (load_macros_data daily_goal ⟨meal_data, none⟩).1 := by
  simp [load_macros_data, consumed_from_cache, macros_left_write, consumed_recompute,
    NUTRIENT_DEFAULTS, MEAL_TYPE_KEYS, getOr0, List.lookup, sub_sub_cancel]

end AllHealthy
